import Mathlib

/-!
Shallow embedding of the core of the kornia-rs repository: the resampling
engine (src/resize.rs, benches/bench_warp.rs), the tensor serialization
bridge (src/tensor/serde.rs) and the CPU allocator (src/tensor/allocator.rs).

Machine f32 arithmetic is modelled by exact rational arithmetic; every claim
settled below only exercises operations that are exact in f32 as well
(products with weight 0 or 1, subtraction x - x, integral grid coordinates).
Pixel buffers are modelled as total functions from indices to values, since
all accesses performed by the embedded code stay in bounds on the inputs the
theorems use.
-/

namespace Kornia

/-- ImageSize from the repository: a target width and height in pixels. -/
structure ImageSize where
  width : Nat
  height : Nat
deriving DecidableEq

/-- Modelled from the spec: the Image type of src/image.rs (not under src/) is a
rank-3 pixel buffer of shape (height, width, channels) with u8 elements; the
`data` field gives the element at (row, column, channel), and the channel count
is recorded as in Array3 shape index 2 (num_channels). -/
structure Image where
  height : Nat
  width : Nat
  channels : Nat
  data : Nat → Nat → Nat → Nat

/-- Rust f32::trunc, rounding toward zero, on the rational model of f32. -/
def truncQ (u : ℚ) : ℤ :=
  if 0 ≤ u then ⌊u⌋ else ⌈u⌉

/-- Rust f32::fract: u - u.trunc(). -/
def fractQ (u : ℚ) : ℚ :=
  u - (truncQ u : ℚ)

/-- Rust cast `as usize` of an integral f32 value: saturating below at 0. -/
def intAsUsize (z : ℤ) : Nat :=
  z.toNat

/-- Rust cast of an f32 value `as u8`: truncate toward zero, saturating into
[0, 255]. -/
def f32AsU8 (q : ℚ) : Nat :=
  min (intAsUsize (truncQ q)) 255

/-- bilinear_interpolation from src/resize.rs lines 21-51, translated tap for
tap. Note that the val00 tap reads channel 0 of the source (line 30 of the
source reads image.data[[iv, iu, 0]]), while the other three taps read
channel c. -/
def bilinear_interpolation (image : Image) (u v : ℚ) (c : Nat) : ℚ :=
  let height := image.height
  let width := image.width
  let iu : Nat := intAsUsize (truncQ u)
  let iv : Nat := intAsUsize (truncQ v)
  let frac_u := fractQ u
  let frac_v := fractQ v
  let val00 : ℚ := image.data iv iu 0
  let val01 : ℚ := if iu + 1 < width then (image.data iv (iu + 1) c : ℚ) else val00
  let val10 : ℚ := if iv + 1 < height then (image.data (iv + 1) iu c : ℚ) else val00
  let val11 : ℚ :=
    if iu + 1 < width ∧ iv + 1 < height then (image.data (iv + 1) (iu + 1) c : ℚ) else val00
  val00 * (1 - frac_u) * (1 - frac_v)
    + val01 * frac_u * (1 - frac_v)
    + val10 * (1 - frac_u) * frac_v
    + val11 * frac_u * frac_v

/-- A concrete 1-by-1 source image whose three channels hold the distinct
values 5, 7 and 9 at the only pixel. -/
def imgC : Image :=
  { height := 1, width := 1, channels := 3, data := fun _ _ k => 5 + 2 * k }

/-- A 2-D ndarray of f32 values: a row count, a column count and the entry
function. -/
structure Array2 where
  rows : Nat
  cols : Nat
  get : Nat → Nat → ℚ

/-- ndarray transpose of a 2-D array. -/
def Array2.t (a : Array2) : Array2 :=
  { rows := a.cols, cols := a.rows, get := fun i j => a.get j i }

/-- A 1-by-n coordinate row vector, as produced in the source by insert_axis
(Axis(0)) on a 1-D array: `len` is the extent of axis 1 and `get` the entry at
(0, j). -/
structure RowVec where
  len : Nat
  get : Nat → ℚ

/-- meshgrid from src/resize.rs lines 4-19. Both call sites pass 1-by-n arrays,
so the two ndarray broadcasts replicate the single row: x.broadcast((ny, nx))
has entry (i, j) = x[0, j], and y.broadcast((nx, ny)) has entry (i, j) =
y[0, j], which is then transposed. -/
def meshgrid (x y : RowVec) : Array2 × Array2 :=
  let nx := x.len
  let ny := y.len
  let xx : Array2 := { rows := ny, cols := nx, get := fun _ j => x.get j }
  let yy : Array2 := Array2.t { rows := nx, cols := ny, get := fun _ j => y.get j }
  (xx, yy)

/-- ndarray Array::linspace(a, b, n): n evenly spaced values; for n > 1 the
step is (b - a) / (n - 1), for n = 1 the single value is a. The function gives
the element at index i. -/
def linspace (a b : ℚ) (n : Nat) (i : Nat) : ℚ :=
  a + (if 1 < n then (b - a) / ((n : ℚ) - 1) else 0) * (i : ℚ)

/-- The coordinate grids resize builds (src/resize.rs lines 61-66): linspace
from 0 to the source extent minus one (usize subtraction, then cast) along
each axis, then meshgrid. First component is the grid of x (column, u)
coordinates, second of y (row, v) coordinates, both of shape
(new height, new width). -/
def resizeGrid (image : Image) (new_size : ImageSize) : Array2 × Array2 :=
  let x : RowVec :=
    { len := new_size.width,
      get := fun j => linspace 0 ((image.width - 1 : Nat) : ℚ) new_size.width j }
  let y : RowVec :=
    { len := new_size.height,
      get := fun j => linspace 0 ((image.height - 1 : Nat) : ℚ) new_size.height j }
  meshgrid x y

/-- resize from src/resize.rs lines 53-87: allocate a zero output buffer of
shape (new height, new width, 3), build the coordinate grids, and fill every
pixel of every channel with the cast bilinear interpolation at the grid
coordinate. Indices outside the allocated shape keep the zero fill. -/
def resize (image : Image) (new_size : ImageSize) : Image :=
  let g := resizeGrid image new_size
  { height := new_size.height, width := new_size.width, channels := 3,
    data := fun i j k =>
      if i < new_size.height ∧ j < new_size.width ∧ k < 3 then
        f32AsU8 (bilinear_interpolation image (g.1.get i j) (g.2.get i j) k)
      else 0 }

/-- Modelled from the spec: the generic Image of the newer API (src/image.rs,
not under src/) with f32 elements and 3 channels, a rank-3 buffer of shape
(height, width, channels). -/
structure ImageF where
  height : Nat
  width : Nat
  data : Nat → Nat → Nat → ℚ

/-- Modelled from the spec: Image::get_pixel(x, y, c) (src/image.rs, not under
src/) reads the rank-3 pixel buffer at (row y, column x, channel c). -/
def ImageF.get_pixel (im : ImageF) (x y c : Nat) : ℚ :=
  im.data y x c

/-- The source x coordinate warp_native computes for output column c and row
r: m0 * u + m1 * v + m2 with u = c and v = r (benches/bench_warp.rs line
38). -/
def warpUSrc (m : ℚ × ℚ × ℚ × ℚ × ℚ × ℚ) (c r : Nat) : ℚ :=
  m.1 * (c : ℚ) + m.2.1 * (r : ℚ) + m.2.2.1

/-- The source y coordinate warp_native computes for output column c and row
r: m3 * u + m4 * v + m5 (benches/bench_warp.rs line 39). -/
def warpVSrc (m : ℚ × ℚ × ℚ × ℚ × ℚ × ℚ) (c r : Nat) : ℚ :=
  m.2.2.2.1 * (c : ℚ) + m.2.2.2.2.1 * (r : ℚ) + m.2.2.2.2.2

/-- warp_native from benches/bench_warp.rs lines 10-79. The output starts as a
zero buffer of the requested size; for each output pixel (row r, column c) the
affine source coordinate is computed, and the pixel is skipped (left zero)
when that coordinate lies outside [0, srcW - 1) x [0, srcH - 1). Otherwise the
SIMD weight vector w = (wa - wc) * (wb - wd) of the source is formed
componentwise and the channel loop `for c in (0..3).step_by(4)` executes for
channel 0 only, writing the weighted sum of the four taps; channels 1 and 2
keep their zero fill. -/
def warp_native (image : ImageF) (m : ℚ × ℚ × ℚ × ℚ × ℚ × ℚ)
    (new_size : ImageSize) : ImageF :=
  { height := new_size.height, width := new_size.width,
    data := fun r c ch =>
      if r < new_size.height ∧ c < new_size.width ∧ ch < 3 then
        let u_src := warpUSrc m c r
        let v_src := warpVSrc m c r
        if u_src < 0 ∨ v_src < 0 ∨ (image.width : ℚ) - 1 ≤ u_src ∨
            (image.height : ℚ) - 1 ≤ v_src then
          0
        else
          let u0 : Nat := intAsUsize ⌊u_src⌋
          let v0 : Nat := intAsUsize ⌊v_src⌋
          let u1 : Nat := u0 + 1
          let v1 : Nat := v0 + 1
          let w0 : ℚ := ((u1 : ℚ) - u_src) * ((v1 : ℚ) - (v1 : ℚ))
          let w1 : ℚ := ((u1 : ℚ) - u_src) * (v_src - v_src)
          let w2 : ℚ := (u_src - (u0 : ℚ)) * ((v1 : ℚ) - (v1 : ℚ))
          let w3 : ℚ := (u_src - (u0 : ℚ)) * (v_src - (v0 : ℚ))
          if ch = 0 then
            image.get_pixel u0 v0 0 * w0 + image.get_pixel u0 v1 0 * w1 +
              image.get_pixel u1 v0 0 * w2 + image.get_pixel u1 v1 0 * w3
          else 0
      else 0 }

/-- A concrete 1-by-1 source image with all three channels equal to 100 at the
only pixel. -/
def img100 : Image :=
  { height := 1, width := 1, channels := 3, data := fun _ _ _ => 100 }

/-- TensorAllocatorError from src/tensor/allocator.rs lines 8-15: an invalid
layout, or an invalid (null) pointer returned by the system allocator. -/
inductive TensorAllocatorError where
  | LayoutError : TensorAllocatorError
  | InvalidPointer : TensorAllocatorError
deriving DecidableEq

/-- CpuAllocator::alloc from src/tensor/allocator.rs lines 54-61. The call to
the external System.alloc is abstracted by its result `sys`, the returned
address, with 0 modelling the null pointer: the code returns InvalidPointer
when that address is null and otherwise wraps it as a non-null pointer. -/
def CpuAllocator.alloc (sys : Nat) : Except TensorAllocatorError Nat :=
  if sys = 0 then Except.error TensorAllocatorError.InvalidPointer
  else Except.ok sys

/-- Modelled from the spec: TensorStorage::from_vec (src/tensor/storage.rs,
not under src/) copies the element sequence into freshly allocated storage
and can fail only when the allocator fails; the storage is modelled by its
element sequence and environmental allocation failure is abstracted away, so
construction succeeds with exactly the given elements. -/
def TensorStorage.from_vec {T : Type} (data : List T) : List T :=
  data

/-- Modelled from the spec: the Tensor struct (src/tensor/mod.rs, not under
src/) is a storage block plus fixed-rank shape and strides arrays
[usize; N]. -/
structure Tensor (T : Type) (N : Nat) where
  storage : List T
  shape : Fin N → Nat
  strides : Fin N → Nat

/-- The wire form of a tensor, the TensorData helper struct of
src/tensor/serde.rs lines 33-38: the flat element sequence, the shape and the
strides, as variable-length sequences. -/
structure TensorData (T : Type) where
  data : List T
  shape : List Nat
  strides : List Nat

/-- Rust Vec::try_into::<[usize; N]> as used in src/tensor/serde.rs lines
49-55: succeeds exactly when the sequence length equals N, and then yields the
array with the same entries. -/
def tryIntoArray {α : Type} (N : Nat) (l : List α) : Option (Fin N → α) :=
  if h : l.length = N then some (fun i => l.get (Fin.cast h.symm i)) else none

/-- Serialize for Tensor from src/tensor/serde.rs lines 8-22: emit the flat
element slice, the shape and the strides. -/
def Tensor.serialize {T : Type} {N : Nat} (t : Tensor T N) : TensorData T :=
  { data := t.storage, shape := List.ofFn t.shape, strides := List.ofFn t.strides }

/-- Deserialize for Tensor from src/tensor/serde.rs lines 29-62: decode the
three fields, build storage from the data via TensorStorage::from_vec, then
convert shape and strides to fixed-size arrays, failing when either length
differs from N. -/
def Tensor.deserialize {T : Type} (N : Nat) (td : TensorData T) :
    Except String (Tensor T N) :=
  let storage := TensorStorage.from_vec td.data
  match tryIntoArray N td.shape with
  | none => Except.error "Invalid shape"
  | some shape_array =>
    match tryIntoArray N td.strides with
    | none => Except.error "Invalid strides"
    | some strides_array =>
      Except.ok { storage := storage, shape := shape_array, strides := strides_array }

end Kornia

/-- Claim C1: for an exactly integral, in-range coordinate the claim says
bilinear_interpolation returns the source value at (row v, column u, channel
c). On the concrete in-range integral input u = 0, v = 0, c = 1 of the 1-by-1
image imgC the code returns 5, the channel-0 value, while the source value at
channel 1 is 7: the val00 tap of the source reads channel 0 instead of c. -/
theorem Kornia.bilinear_integer_coords_reads_channel_zero :
    Kornia.bilinear_interpolation Kornia.imgC 0 0 1 = 5 ∧
      Kornia.imgC.data 0 0 1 = 7 := by
  constructor
  · norm_num [Kornia.bilinear_interpolation, Kornia.imgC, Kornia.truncQ,
      Kornia.fractQ, Kornia.intAsUsize]
  · norm_num [Kornia.imgC]

/-- Claim C2: resizing an image to its own current size is claimed to
reproduce the source value at every pixel and channel. On the 1-by-1 image
imgC resized to its own size 1-by-1, the output at pixel (0,0) channel 1 is 5
(the channel-0 source value, through the channel-0 val00 tap of
bilinear_interpolation) while the source holds 7 there. -/
theorem Kornia.resize_identity_reads_channel_zero :
    (Kornia.resize Kornia.imgC { width := 1, height := 1 }).data 0 0 1 = 5 ∧
      Kornia.imgC.data 0 0 1 = 7 := by
  constructor
  · norm_num [Kornia.resize, Kornia.resizeGrid, Kornia.meshgrid, Kornia.Array2.t,
      Kornia.linspace, Kornia.bilinear_interpolation, Kornia.imgC, Kornia.truncQ,
      Kornia.fractQ, Kornia.intAsUsize, Kornia.f32AsU8]
    decide
  · norm_num [Kornia.imgC]

/-- Claim C10: meshgrid on row vectors x (length nx) and y (length ny)
returns two arrays xx and yy of shape (ny, nx) with xx[i, j] = x[j] and
yy[i, j] = y[i] for all in-range i, j. -/
theorem Kornia.meshgrid_spec (x y : Kornia.RowVec) (i j : Nat)
    (hi : i < y.len) (hj : j < x.len) :
    (Kornia.meshgrid x y).1.rows = y.len ∧
      (Kornia.meshgrid x y).1.cols = x.len ∧
      (Kornia.meshgrid x y).2.rows = y.len ∧
      (Kornia.meshgrid x y).2.cols = x.len ∧
      (Kornia.meshgrid x y).1.get i j = x.get j ∧
      (Kornia.meshgrid x y).2.get i j = y.get i := by
  simp [Kornia.meshgrid, Kornia.Array2.t]

/-- Witness for meshgrid_spec at the concrete row vectors x = [10, 20] and
y = [30, 40, 50] and the in-range index (2, 1). -/
theorem Kornia.meshgrid_spec_witness :
    (2 < 3 ∧ 1 < 2) ∧
      ((Kornia.meshgrid ⟨2, fun j => 10 + 10 * j⟩ ⟨3, fun i => 30 + 10 * i⟩).1.get 2 1 =
          (20 : ℚ) ∧
        (Kornia.meshgrid ⟨2, fun j => 10 + 10 * j⟩ ⟨3, fun i => 30 + 10 * i⟩).2.get 2 1 =
          (50 : ℚ)) := by
  refine ⟨⟨by norm_num, by norm_num⟩, ?_, ?_⟩
  · have h := Kornia.meshgrid_spec ⟨2, fun j => 10 + 10 * j⟩ ⟨3, fun i => 30 + 10 * i⟩
      2 1 (by norm_num) (by norm_num)
    rw [h.2.2.2.2.1]
    norm_num
  · have h := Kornia.meshgrid_spec ⟨2, fun j => 10 + 10 * j⟩ ⟨3, fun i => 30 + 10 * i⟩
      2 1 (by norm_num) (by norm_num)
    rw [h.2.2.2.2.2]
    norm_num

/-- Claim C9: for a nonempty source image (nonzero extents, so the usize
subtractions width - 1 and height - 1 in the source do not underflow), resize
returns an output buffer whose height and width equal exactly the requested
target size and whose channel count is 3. The source image is not mutated:
the embedded resize is a pure function of the image value and never writes to
it, matching the source, which only reads image.data. -/
theorem Kornia.resize_output_dims (image : Kornia.Image) (new_size : Kornia.ImageSize)
    (hh : 0 < image.height) (hw : 0 < image.width) :
    (Kornia.resize image new_size).height = new_size.height ∧
      (Kornia.resize image new_size).width = new_size.width ∧
      (Kornia.resize image new_size).channels = 3 := by
  refine ⟨rfl, rfl, rfl⟩

/-- Claim C3 counterexample: the claim applies the blank-on-out-of-range
policy to resize as well, but resize performs no such check. Resizing the
1-by-1 image img100 (all values 100) to 1-by-1 computes the source coordinate
(0, 0), which lies outside [0, srcW - 1) x [0, srcH - 1) = [0, 0) x [0, 0),
yet the output pixel is 100, not its zero fill. -/
theorem Kornia.resize_out_of_range_pixel_not_blank :
    (Kornia.resizeGrid Kornia.img100 { width := 1, height := 1 }).1.get 0 0 = 0 ∧
      ¬ ((0 : ℚ) ≤ (Kornia.resizeGrid Kornia.img100 { width := 1, height := 1 }).1.get 0 0 ∧
          (Kornia.resizeGrid Kornia.img100 { width := 1, height := 1 }).1.get 0 0 <
            (Kornia.img100.width : ℚ) - 1) ∧
      (Kornia.resize Kornia.img100 { width := 1, height := 1 }).data 0 0 0 = 100 := by
  refine ⟨?_, ?_, ?_⟩
  · norm_num [Kornia.resizeGrid, Kornia.meshgrid, Kornia.linspace]
  · norm_num [Kornia.resizeGrid, Kornia.meshgrid, Kornia.linspace, Kornia.img100]
  · norm_num [Kornia.resize, Kornia.resizeGrid, Kornia.meshgrid, Kornia.Array2.t,
      Kornia.linspace, Kornia.bilinear_interpolation, Kornia.img100, Kornia.truncQ,
      Kornia.fractQ, Kornia.intAsUsize, Kornia.f32AsU8]
    decide

/-- Claim C3 as amended: for every output pixel of warp_native whose computed
source coordinate falls outside [0, srcW - 1) x [0, srcH - 1), the output
pixel is left at its zero-initialized value in every channel (hence a
translation that maps every output pixel out of range yields an all-zero
buffer); resize, by contrast, applies no boundary check. -/
theorem Kornia.warp_native_out_of_range_blank (image : Kornia.ImageF)
    (m : ℚ × ℚ × ℚ × ℚ × ℚ × ℚ) (new_size : Kornia.ImageSize) (r c ch : Nat)
    (h : Kornia.warpUSrc m c r < 0 ∨ Kornia.warpVSrc m c r < 0 ∨
      (image.width : ℚ) - 1 ≤ Kornia.warpUSrc m c r ∨
      (image.height : ℚ) - 1 ≤ Kornia.warpVSrc m c r) :
    (Kornia.warp_native image m new_size).data r c ch = 0 := by
  unfold Kornia.warp_native
  dsimp only
  split_ifs
  all_goals rfl

/-- Witness for warp_native_out_of_range_blank: a translation by (5, 5) on a
2-by-2 all-ones image maps output pixel (0, 0) to source coordinate (5, 5),
out of range, and the output there is 0. -/
theorem Kornia.warp_native_out_of_range_blank_witness :
    ((2 : ℚ) - 1 ≤ Kornia.warpUSrc (1, 0, 5, 0, 1, 5) 0 0) ∧
      (Kornia.warp_native { height := 2, width := 2, data := fun _ _ _ => 1 }
          (1, 0, 5, 0, 1, 5) { width := 2, height := 2 }).data 0 0 0 = 0 :=
  ⟨by norm_num [Kornia.warpUSrc],
    Kornia.warp_native_out_of_range_blank
      { height := 2, width := 2, data := fun _ _ _ => 1 } (1, 0, 5, 0, 1, 5)
      { width := 2, height := 2 } 0 0 0
      (Or.inr (Or.inr (Or.inl (by norm_num [Kornia.warpUSrc]))))⟩

/-- Claim C7 counterexample: the claim says a zero target size is rejected
with an error before allocation, but resize has no error path at all (its
return type is Image) and a zero target produces an output buffer of zero
extent. -/
theorem Kornia.resize_zero_target_returns_empty_buffer :
    (Kornia.resize Kornia.img100 { width := 0, height := 0 }).height = 0 ∧
      (Kornia.resize Kornia.img100 { width := 0, height := 0 }).width = 0 :=
  ⟨rfl, rfl⟩

/-- Claim C7 as amended: resize performs no validation of the target size and
has no error path; for every source image and any target size, including zero
extents, it returns an output buffer of exactly the requested extent. -/
theorem Kornia.resize_accepts_zero_target (image : Kornia.Image) :
    (Kornia.resize image { width := 0, height := 0 }).height = 0 ∧
      (Kornia.resize image { width := 0, height := 0 }).width = 0 ∧
      (Kornia.resize image { width := 0, height := 0 }).channels = 3 :=
  ⟨rfl, rfl, rfl⟩

/-- Witness for resize_output_dims at the concrete image imgC (1-by-1, both
extents positive) and target size 2-by-3. -/
theorem Kornia.resize_output_dims_witness :
    (0 < Kornia.imgC.height ∧ 0 < Kornia.imgC.width) ∧
      (Kornia.resize Kornia.imgC { width := 2, height := 3 }).height = 3 ∧
        (Kornia.resize Kornia.imgC { width := 2, height := 3 }).width = 2 ∧
        (Kornia.resize Kornia.imgC { width := 2, height := 3 }).channels = 3 :=
  ⟨⟨by norm_num [Kornia.imgC], by norm_num [Kornia.imgC]⟩,
    Kornia.resize_output_dims Kornia.imgC { width := 2, height := 3 }
      (by norm_num [Kornia.imgC]) (by norm_num [Kornia.imgC])⟩

/-- Claim C4: serializing a tensor of rank N and deserializing the result
reproduces the original tensor exactly: identical element sequence, shape and
strides (no numeric transformation occurs anywhere in the bridge). -/
theorem Kornia.tensor_serde_roundtrip {T : Type} {N : Nat} (t : Kornia.Tensor T N) :
    Kornia.Tensor.deserialize N (Kornia.Tensor.serialize t) = Except.ok t := by
  obtain ⟨st, sh, str⟩ := t
  simp only [Kornia.Tensor.serialize, Kornia.Tensor.deserialize,
    Kornia.TensorStorage.from_vec, Kornia.tryIntoArray]
  rw [dif_pos (List.length_ofFn sh), dif_pos (List.length_ofFn str)]
  refine congrArg Except.ok ?_
  refine congrArg₂ (Kornia.Tensor.mk st) ?_ ?_ <;>
    (funext i; rw [List.get_ofFn]; exact rfl)

/-- Claim C5 counterexample: a record whose data length 3 differs from the
shape product 2 * 2 = 4 is claimed to be rejected, but deserialization at
rank 2 succeeds on it: no element-count check exists in the bridge. -/
theorem Kornia.deserialize_count_mismatch_succeeds :
    ([1, 2, 3] : List Nat).length ≠ ([2, 2] : List Nat).prod ∧
      ∃ t : Kornia.Tensor Nat 2,
        Kornia.Tensor.deserialize 2 { data := [1, 2, 3], shape := [2, 2], strides := [2, 1] } =
          Except.ok t ∧ t.storage = [1, 2, 3] := by
  refine ⟨by norm_num, ⟨⟨[1, 2, 3], fun i => [2, 2].get (Fin.cast rfl i),
    fun i => [2, 1].get (Fin.cast rfl i)⟩, rfl, rfl⟩⟩

/-- Claim C5 as amended: deserialization of a rank-N tensor performs no
element-count check; whenever the shape and strides sequences both have
length N it succeeds (allocation failures aside), taking the whole data
sequence as storage even when its length differs from the product of the
shape entries. -/
theorem Kornia.deserialize_ignores_element_count {T : Type} (N : Nat)
    (td : Kornia.TensorData T) (hs : td.shape.length = N) (ht : td.strides.length = N) :
    ∃ t : Kornia.Tensor T N,
      Kornia.Tensor.deserialize N td = Except.ok t ∧ t.storage = td.data := by
  unfold Kornia.Tensor.deserialize Kornia.tryIntoArray
  rw [dif_pos hs, dif_pos ht]
  exact ⟨_, rfl, rfl⟩

/-- Witness for deserialize_ignores_element_count at the concrete rank-2
record with 5 data elements and shape [2, 2] (product 4): both length
hypotheses hold and deserialization succeeds. -/
theorem Kornia.deserialize_ignores_element_count_witness :
    ([1, 2, 3, 4, 5] : List Nat).length ≠ ([2, 2] : List Nat).prod ∧
      ∃ t : Kornia.Tensor Nat 2,
        Kornia.Tensor.deserialize 2
            { data := [1, 2, 3, 4, 5], shape := [2, 2], strides := [2, 1] } =
          Except.ok t ∧ t.storage = [1, 2, 3, 4, 5] :=
  ⟨by norm_num,
    Kornia.deserialize_ignores_element_count 2
      { data := [1, 2, 3, 4, 5], shape := [2, 2], strides := [2, 1] } rfl rfl⟩

/-- Claim C6: deserializing a rank-N tensor from a record whose shape length
or strides length differs from N returns an error; the sequences are never
truncated or padded. -/
theorem Kornia.deserialize_rank_mismatch_errors {T : Type} (N : Nat)
    (td : Kornia.TensorData T)
    (h : td.shape.length ≠ N ∨ td.strides.length ≠ N) :
    ∃ e, Kornia.Tensor.deserialize N td = Except.error e := by
  unfold Kornia.Tensor.deserialize Kornia.tryIntoArray
  by_cases hs : td.shape.length = N
  · have ht : td.strides.length ≠ N := h.resolve_left (fun hc => hc hs)
    rw [dif_pos hs, dif_neg ht]
    exact ⟨_, rfl⟩
  · rw [dif_neg hs]
    exact ⟨_, rfl⟩

/-- Witness for deserialize_rank_mismatch_errors at a concrete rank-1
deserialization of a record whose shape has length 2. -/
theorem Kornia.deserialize_rank_mismatch_errors_witness :
    ([1, 2] : List Nat).length ≠ 1 ∧
      ∃ e, Kornia.Tensor.deserialize 1
          { data := ([5] : List Nat), shape := [1, 2], strides := [1] } =
        Except.error e :=
  ⟨by norm_num,
    Kornia.deserialize_rank_mismatch_errors 1
      { data := ([5] : List Nat), shape := [1, 2], strides := [1] }
      (Or.inl (by norm_num))⟩

/-- Claim C8: CpuAllocator::alloc returns the typed InvalidPointer error
exactly when the underlying system allocator returns null, returns the
(non-null) block unchanged otherwise, and never returns a successful result
whose pointer is null. -/
theorem Kornia.cpu_alloc_spec (sys : Nat) :
    (Kornia.CpuAllocator.alloc sys =
        Except.error Kornia.TensorAllocatorError.InvalidPointer ↔ sys = 0) ∧
      (sys ≠ 0 → Kornia.CpuAllocator.alloc sys = Except.ok sys) ∧
      ∀ p, Kornia.CpuAllocator.alloc sys = Except.ok p → p ≠ 0 := by
  unfold Kornia.CpuAllocator.alloc
  by_cases h : sys = 0 <;> simp [h]

/-- Witness for cpu_alloc_spec: a null system result yields InvalidPointer,
and the successful allocation at the nonzero address 7 is non-null. -/
theorem Kornia.cpu_alloc_spec_witness :
    Kornia.CpuAllocator.alloc 0 =
        Except.error Kornia.TensorAllocatorError.InvalidPointer ∧
      Kornia.CpuAllocator.alloc 7 = Except.ok 7 ∧ (7 : Nat) ≠ 0 :=
  ⟨(Kornia.cpu_alloc_spec 0).1.mpr rfl,
    (Kornia.cpu_alloc_spec 7).2.1 (by norm_num),
    (Kornia.cpu_alloc_spec 7).2.2 7 ((Kornia.cpu_alloc_spec 7).2.1 (by norm_num))⟩
